import Mathlib

/-!
# PharmaTrack dispensation orchestrator — shallow embedding

This file embeds the orchestrator service (`src/orquestador/server.js`)
of the PharmaTrack repository in Lean 4 and proves properties about it.

Modelling conventions:
* JavaScript `Map` objects (`memIdem`, `memReservas`) become association
  lists `List (String × _)`; `Map.get`/`Map.set`/`Map.delete` become
  `mapGet`/`mapSet`/`mapDel`.
* `Date.now()` becomes an explicit `now : Nat` parameter (milliseconds).
* Each HTTP handler becomes a pure function taking a `Downstream` oracle
  (the replies of the three upstream services, keyed by the request
  parameters; transport errors and non-2xx rejections — both of which make
  `axios` throw — are an `Except.error` carrying the stringified error, as
  produced by `String(e)` in the handlers' catch blocks; a `null` response
  body, which the handlers coerce with `|| []`, is modelled as `[]`).
* Each handler also returns the list of downstream calls it issued, in
  issue order (`Promise.all` fan-outs are listed in array order).
* JavaScript truthiness on strings (`if (!id)`, `?.id_sucursal || null`) is
  modelled by `jsOrNull`, which collapses the empty string to `none`.
-/

/-- A stock row as returned by the inventory service's `GET /stock`.
Both spellings of the quantity field occur in the data
(`stock_actual` from the current inventory service, `cantidad_actual`
from the legacy one), hence the two optional fields. -/
structure StockRow where
  id_sucursal : String
  stock_actual : Option Nat
  cantidad_actual : Option Nat
deriving DecidableEq, Repr

/-- `s.stock_actual ?? s.cantidad_actual ?? 0` — the availability the
orchestrator reads off one stock row. -/
def avail (s : StockRow) : Nat :=
  s.stock_actual.getD (s.cantidad_actual.getD 0)

/-- `(st || []).reduce((a, s) => a + (s.stock_actual ?? s.cantidad_actual ?? 0), 0)`. -/
def sumAvail (rows : List StockRow) : Nat :=
  rows.foldl (fun a s => a + avail s) 0

/-- One line item of a prescription's `detalle` list. -/
structure DetalleItem where
  id_producto : String
  cantidad : Nat
deriving DecidableEq, Repr

/-- A prescription as returned by the recetas service.  `detalle` is
`Option` because the handlers guard it with `receta.detalle || []`. -/
structure Receta where
  id_receta : String
  id_sucursal : String
  detalle : Option (List DetalleItem)
deriving DecidableEq, Repr

/-- One shortfall entry of a `STOCK_INSUFICIENTE` rejection. -/
structure Faltante where
  id_producto : String
  requerido : Nat
  disponible : Nat
deriving DecidableEq, Repr

/-- One reconciliation line of `POST /receta/validar`'s response. -/
structure ItemVal where
  id_producto : String
  solicitado : Nat
  disponible : Nat
  ok : Bool
deriving DecidableEq, Repr

/-- One reconciliation line of `GET /receta/:id/validacion`'s response. -/
structure ItemValG where
  id_producto : String
  solicitado : Nat
  disponible : Nat
  id_sucursal_sugerida : Option String
deriving DecidableEq, Repr

/-- The JSON bodies the orchestrator can answer with; each constructor
mirrors one object literal in `server.js`, with the literal's string
fields as explicit arguments. -/
inductive RespBody where
  | statusOk
  | ready
  | downstreamUnavailable (code message : String)
  | validationError (code message : String)
  | downstreamError (code message details : String)
  | validarResult (id_receta : String) (items : List ItemVal) (estado_sugerido : String)
  | validacionResult (id_receta : String) (estado_sugerido : String) (items : List ItemValG)
  | stockInsuficiente (code message : String) (details : List Faltante)
  | reservaOk (id_receta : String) (vence_en_ms : Nat)
deriving DecidableEq, Repr

/-- An HTTP response: status code plus JSON body. -/
structure Response where
  status : Nat
  body : RespBody
deriving DecidableEq, Repr

/-- The string field values of a response body (including the strings of
nested detail entries): what could textually carry a correlation id. -/
def payloadStrings : RespBody → List String
  | .statusOk => ["ok"]
  | .ready => ["ready"]
  | .downstreamUnavailable c m => [c, m]
  | .validationError c m => [c, m]
  | .downstreamError c m d => [c, m, d]
  | .validarResult i items e => i :: e :: items.map (·.id_producto)
  | .validacionResult i e items =>
      i :: e :: (items.map (·.id_producto) ++ items.filterMap (·.id_sucursal_sugerida))
  | .stockInsuficiente c m ds => c :: m :: ds.map (·.id_producto)
  | .reservaOk i _ => [i]

/-- One outbound call of the orchestrator, with the correlation id it
carried in its `X-Correlation-Id` header. -/
inductive Call where
  | getReceta (id_receta cid : String)
  | getStock (id_producto : String) (id_sucursal : Option String) (cid : String)
  | healthz (service cid : String)
deriving DecidableEq, Repr

/-- Replies of the three downstream services, keyed the way the
orchestrator queries them.  The oracle is a function of the request
parameters only (the correlation header is tracing metadata). -/
structure Downstream where
  /-- `GET {RECETAS_URL}/{id}` → parsed prescription, or the thrown error. -/
  receta : String → Except String Receta
  /-- `GET {INVENTARIO_URL}/stock?id_producto=&id_sucursal=`. -/
  stockSuc : String → String → Except String (List StockRow)
  /-- `GET {INVENTARIO_URL}/stock?id_producto=` (all locations). -/
  stockAll : String → Except String (List StockRow)
  /-- `GET {INVENTARIO_URL}/healthz`. -/
  healthInventario : Except String Unit
  /-- `GET {RECETAS_URL}/healthz`. -/
  healthRecetas : Except String Unit
  /-- `GET {CATALOGO_URL}/healthz`. -/
  healthCatalogo : Except String Unit

/-- JavaScript string truthiness: `x || null` / `if (!x)` treat the empty
string like `null`. -/
def jsOrNull : Option String → Option String
  | none => none
  | some s => if s = "" then none else some s

/-! ## The two in-memory maps -/

/-- `Map.prototype.get`. -/
def mapGet {α : Type} (m : List (String × α)) (k : String) : Option α :=
  match m.find? (fun p => p.1 == k) with
  | some p => some p.2
  | none => none

/-- `Map.prototype.delete`. -/
def mapDel {α : Type} (m : List (String × α)) (k : String) : List (String × α) :=
  m.filter (fun p => !(p.1 == k))

/-- `Map.prototype.set` (silent overwrite). -/
def mapSet {α : Type} (m : List (String × α)) (k : String) (v : α) : List (String × α) :=
  (k, v) :: mapDel m k

/-- A `memIdem` entry: `{ ts: Date.now(), result: v }`. -/
structure IdemEntry where
  ts : Nat
  result : RespBody
deriving DecidableEq, Repr

/-- `IDEM_TTL_MS = 10 * 60 * 1000`. -/
def IDEM_TTL_MS : Nat := 10 * 60 * 1000

/-- `RESERVA_TTL_MS = 2 * 60 * 1000`. -/
def RESERVA_TTL_MS : Nat := 2 * 60 * 1000

/-- `idemGet`: lookup with lazy eviction.  Returns the replayable result
(if any) together with the map after the possible eviction. -/
def idemGet (m : List (String × IdemEntry)) (now : Nat) (k : String) :
    Option RespBody × List (String × IdemEntry) :=
  match mapGet m k with
  | none => (none, m)
  | some it =>
      if IDEM_TTL_MS < now - it.ts then (none, mapDel m k)
      else (some it.result, m)

/-- `idemSet = (k, v) => memIdem.set(k, { ts: Date.now(), result: v })`. -/
def idemSet (m : List (String × IdemEntry)) (now : Nat) (k : String) (v : RespBody) :
    List (String × IdemEntry) :=
  mapSet m k ⟨now, v⟩

/-- A `memReservas` entry: `{ vence: Date.now() + RESERVA_TTL_MS, items: receta.detalle }`.
Note the raw `receta.detalle` (possibly null) is stored, not the guarded list. -/
structure Reserva where
  vence : Nat
  items : Option (List DetalleItem)
deriving DecidableEq, Repr

/-- The orchestrator's process-wide mutable state: the idempotency cache
and the ephemeral reservation map. -/
structure OrchState where
  memIdem : List (String × IdemEntry)
  memReservas : List (String × Reserva)
deriving DecidableEq, Repr

/-! ## Handlers -/

/-- Did an upstream call succeed? -/
def exOk {α : Type} : Except String α → Bool
  | .ok _ => true
  | .error _ => false

/-- The readiness verdict from the three probe outcomes: `Promise.all`
resolves only when every probe succeeded; any rejection (including a
timeout) lands in the `catch`. -/
def readyVerdict (hInv hRec hCat : Except String Unit) : Response :=
  match hInv, hRec, hCat with
  | .ok _, .ok _, .ok _ => ⟨200, .ready⟩
  | _, _, _ =>
      ⟨503, .downstreamUnavailable "DOWNSTREAM_UNAVAILABLE" "Algún servicio no responde"⟩

/-- `GET /readyz`: probes the three services' `/healthz` concurrently with
the same timeout policy as normal calls. -/
def readyz (ds : Downstream) (c : String) : Response × List Call :=
  (readyVerdict ds.healthInventario ds.healthRecetas ds.healthCatalogo,
   [Call.healthz "inventario" c, Call.healthz "recetas" c, Call.healthz "catalogo" c])

/-- The per-line reconciliation of `POST /receta/validar`: one stock query
per line item, scoped to the prescription's own `id_sucursal`; the first
failing query aborts the `Promise.all` with its error. -/
def validarItems (ds : Downstream) (suc : String) :
    List DetalleItem → Except String (List ItemVal)
  | [] => .ok []
  | it :: rest =>
      match ds.stockSuc it.id_producto suc with
      | .error e => .error e
      | .ok rows =>
          match validarItems ds suc rest with
          | .error e => .error e
          | .ok items =>
              .ok ({ id_producto := it.id_producto, solicitado := it.cantidad,
                     disponible := sumAvail rows,
                     ok := decide (it.cantidad ≤ sumAvail rows) } :: items)

/-- `todos ? "VALIDADA" : (items.some(i => i.disponible > 0) ? "PARCIAL" : "RECHAZADA")`. -/
def estadoSugeridoVal (items : List ItemVal) : String :=
  if items.all (·.ok) then "VALIDADA"
  else if items.any (fun i => 0 < i.disponible) then "PARCIAL" else "RECHAZADA"

/-- The downstream calls `POST /receta/validar` issues once the
prescription fetch succeeded: the fetch plus the `Promise.all` fan-out of
one stock query per line, scoped to the prescription's location. -/
def validarCalls (c : String) (id : String) (receta : Receta) : List Call :=
  Call.getReceta id c ::
    (receta.detalle.getD []).map
      (fun it => Call.getStock it.id_producto (some receta.id_sucursal) c)

/-- `POST /receta/validar` once the prescription arrived: reconcile the
lines and answer (200 and `VALIDADA` only when every line is satisfiable,
207 otherwise; a failed stock query answers 502). -/
def validarExec2 (ds : Downstream) (c id : String) (receta : Receta) :
    Response × List Call :=
  match validarItems ds receta.id_sucursal (receta.detalle.getD []) with
  | .error e =>
      (⟨502, .downstreamError "DOWNSTREAM_ERROR" "Fallo validando receta" e⟩,
       validarCalls c id receta)
  | .ok items =>
      (⟨if items.all (·.ok) then 200 else 207,
        .validarResult id items (estadoSugeridoVal items)⟩,
       validarCalls c id receta)

/-- The body of `POST /receta/validar` past the `id_receta` guard: fetch
the prescription, then reconcile. -/
def validarExec (ds : Downstream) (c id : String) : Response × List Call :=
  match ds.receta id with
  | .error e =>
      (⟨502, .downstreamError "DOWNSTREAM_ERROR" "Fallo validando receta" e⟩,
       [Call.getReceta id c])
  | .ok receta => validarExec2 ds c id receta

/-- `POST /receta/validar` with body field `id_receta`.  Returns the
response and the downstream calls issued. -/
def recetaValidar (ds : Downstream) (c : String) (body_id : Option String) :
    Response × List Call :=
  match jsOrNull body_id with
  | none => (⟨400, .validationError "VALIDATION_ERROR" "id_receta requerido"⟩, [])
  | some id => validarExec ds c id

/-- The per-line reconciliation of `GET /receta/:id/validacion`: one stock
query per line item across all locations; `disponible` is the sum, and
the suggested location is the first row whose own availability meets the
requested quantity (`?.id_sucursal || null`). -/
def validacionItems (ds : Downstream) :
    List DetalleItem → Except String (List ItemValG)
  | [] => .ok []
  | it :: rest =>
      match ds.stockAll it.id_producto with
      | .error e => .error e
      | .ok rows =>
          match validacionItems ds rest with
          | .error e => .error e
          | .ok items =>
              .ok ({ id_producto := it.id_producto, solicitado := it.cantidad,
                     disponible := sumAvail rows,
                     id_sucursal_sugerida :=
                       jsOrNull ((rows.find? (fun x => it.cantidad ≤ avail x)).map
                         (·.id_sucursal)) } :: items)

/-- `ok ? "VALIDADA" : (items.some(i => i.disponible > 0) ? "PARCIAL" : "RECHAZADA")`. -/
def estadoSugeridoValG (items : List ItemValG) : String :=
  if items.all (fun i => i.solicitado ≤ i.disponible) then "VALIDADA"
  else if items.any (fun i => 0 < i.disponible) then "PARCIAL" else "RECHAZADA"

/-- The downstream calls `GET /receta/:id/validacion` issues once the
prescription fetch succeeded: the fetch plus one all-location stock query
per line. -/
def validacionCalls (c : String) (id : String) (receta : Receta) : List Call :=
  Call.getReceta id c ::
    (receta.detalle.getD []).map (fun it => Call.getStock it.id_producto none c)

/-- `GET /receta/:id/validacion` once the prescription arrived: reconcile
across all locations and answer 200 (a failed stock query answers 502). -/
def validacionExec2 (ds : Downstream) (c id : String) (receta : Receta) :
    Response × List Call :=
  match validacionItems ds (receta.detalle.getD []) with
  | .error e =>
      (⟨502, .downstreamError "DOWNSTREAM_ERROR" "Fallo consultando receta/stock" e⟩,
       validacionCalls c id receta)
  | .ok items =>
      (⟨200, .validacionResult receta.id_receta (estadoSugeridoValG items) items⟩,
       validacionCalls c id receta)

/-- `GET /receta/:id/validacion` (read-only validation). -/
def recetaValidacion (ds : Downstream) (c : String) (id : String) :
    Response × List Call :=
  match ds.receta id with
  | .error e =>
      (⟨502, .downstreamError "DOWNSTREAM_ERROR" "Fallo consultando receta/stock" e⟩,
       [Call.getReceta id c])
  | .ok receta => validacionExec2 ds c id receta

/-- The shortfall loop of `POST /reserva-stock`: sequential `for..of` with
one awaited stock query per line; a throwing query aborts the loop there
(later calls are never issued). -/
def reservaCheck (ds : Downstream) (c suc : String) :
    List DetalleItem → List Call × Except String (List Faltante)
  | [] => ([], .ok [])
  | it :: rest =>
      let call := Call.getStock it.id_producto (some suc) c
      match ds.stockSuc it.id_producto suc with
      | .error e => ([call], .error e)
      | .ok rows =>
          let disp := sumAvail rows
          let (calls, r) := reservaCheck ds c suc rest
          (call :: calls,
           r.map (fun fs =>
             if disp < it.cantidad then
               { id_producto := it.id_producto, requerido := it.cantidad,
                 disponible := disp } :: fs
             else fs))

/-- The state committed by a successful reservation: the ephemeral
`memReservas` entry (which stores the raw `receta.detalle`), and — when an
idempotency key was supplied — the cached success result. -/
def commitState (st1 : OrchState) (now : Nat) (idem : Option String) (id : String)
    (receta : Receta) : OrchState :=
  match idem with
  | some k =>
      { memReservas := mapSet st1.memReservas id ⟨now + RESERVA_TTL_MS, receta.detalle⟩,
        memIdem := idemSet st1.memIdem now k (.reservaOk id RESERVA_TTL_MS) }
  | none =>
      { st1 with memReservas := mapSet st1.memReservas id ⟨now + RESERVA_TTL_MS, receta.detalle⟩ }

/-- The shortfall decision of `POST /reserva-stock` once the prescription
arrived: run the shortfall loop at the prescription's own location, reject
with 409 on any shortfall, otherwise store the reservation and (if a key
was supplied) cache the success result. -/
def reservaExec2 (ds : Downstream) (now : Nat) (st1 : OrchState) (c : String)
    (idem : Option String) (id : String) (receta : Receta) :
    Response × OrchState × List Call :=
  match (reservaCheck ds c receta.id_sucursal (receta.detalle.getD [])).2 with
  | .error e =>
      (⟨502, .downstreamError "DOWNSTREAM_ERROR" "Fallo al reservar" e⟩, st1,
       Call.getReceta id c :: (reservaCheck ds c receta.id_sucursal (receta.detalle.getD [])).1)
  | .ok [] =>
      (⟨200, .reservaOk id RESERVA_TTL_MS⟩, commitState st1 now idem id receta,
       Call.getReceta id c :: (reservaCheck ds c receta.id_sucursal (receta.detalle.getD [])).1)
  | .ok (f :: fs) =>
      (⟨409, .stockInsuficiente "STOCK_INSUFICIENTE" "No alcanza para reservar" (f :: fs)⟩,
       st1,
       Call.getReceta id c :: (reservaCheck ds c receta.id_sucursal (receta.detalle.getD [])).1)

/-- The body of `POST /reserva-stock` past the idempotency gate: fetch the
prescription, then decide.  `st1` is the state after the gate's lazy
eviction. -/
def reservaExec (ds : Downstream) (now : Nat) (st1 : OrchState) (c : String)
    (idem : Option String) (id : String) : Response × OrchState × List Call :=
  match ds.receta id with
  | .error e =>
      (⟨502, .downstreamError "DOWNSTREAM_ERROR" "Fallo al reservar" e⟩, st1,
       [Call.getReceta id c])
  | .ok receta => reservaExec2 ds now st1 c idem id receta

/-- The idempotency gate of `POST /reserva-stock`: replay the unexpired
cached result for the supplied key, otherwise run the body on the
lazily-evicted state. -/
def reservaGate (ds : Downstream) (now : Nat) (st : OrchState) (c : String)
    (k id : String) : Response × OrchState × List Call :=
  match idemGet st.memIdem now k with
  | (some cache, m1) => (⟨200, cache⟩, { st with memIdem := m1 }, [])
  | (none, m1) => reservaExec ds now { st with memIdem := m1 } c (some k) id

/-- `POST /reserva-stock`: validates `id_receta`, replays an unexpired
idempotent result, otherwise runs `reservaExec`.  Returns the response,
the new state and the issued calls. -/
def reservaStock (ds : Downstream) (now : Nat) (st : OrchState) (c : String)
    (idem : Option String) (body_id : Option String) :
    Response × OrchState × List Call :=
  match jsOrNull body_id with
  | none => (⟨400, .validationError "VALIDATION_ERROR" "id_receta requerido"⟩, st, [])
  | some id =>
      match idem with
      | none => reservaExec ds now st c none id
      | some k => reservaGate ds now st c k id

/-! ## Dispensation saga — egress phase

The repository's sources carry no dispense saga coordinator: `POST
/dispensar`, its `APPLY_EGRESS_SEQUENTIALLY` and `COMPENSATE` phases exist
only in the specification (src/ holds merely the `dispensacion` database
schema and the inventory ledger those phases would call).  The phase is
therefore modelled from the spec, §4.4/§5/§9. -/

/-- `{ location, product_id, quantity }`: one intended ledger mutation,
built only after all lines verified satisfiable. -/
structure EgressIntent where
  location : String
  product_id : String
  quantity : Nat
deriving DecidableEq, Repr

/-- One signed stock movement against the ledger: an egress "decrease" or a
compensating "increase". -/
inductive LedgerOp where
  | decrease (e : EgressIntent)
  | increase (e : EgressIntent)
deriving DecidableEq, Repr

/-- The signed stock delta a ledger call causes when it succeeds. -/
def ledgerDelta : LedgerOp → Int
  | .decrease e => -(e.quantity : Int)
  | .increase e => (e.quantity : Int)

/-- Net ledger effect of an issue-ordered trace of `(call, succeeded)`
pairs: failed calls change nothing. -/
def netEffect (tr : List (LedgerOp × Bool)) : Int :=
  (tr.map (fun p => if p.2 then ledgerDelta p.1 else 0)).sum

/-- Modelled from the spec: `APPLY_EGRESS_SEQUENTIALLY` — for each line,
issue one ledger-mutating "decrease" call, in the input line order,
appending each success to the AppliedMutation list before attempting the
next; the first failure stops the phase.  `ok` is the ledger's verdict per
call.  Returns (applied mutations, issued-call trace, first failing
intent if any). -/
def applyEgress (ok : LedgerOp → Bool) :
    List EgressIntent → List EgressIntent × List (LedgerOp × Bool) × Option EgressIntent
  | [] => ([], [], none)
  | e :: rest =>
      let op := LedgerOp.decrease e
      if ok op then
        let r := applyEgress ok rest
        (e :: r.1, (op, true) :: r.2.1, r.2.2)
      else ([], [(op, false)], some e)

/-- Modelled from the spec: `COMPENSATE` — for every AppliedMutation
recorded so far, in apply order (the reference behavior of §9), issue the
inverse ledger-mutating "increase" call, best-effort: a compensation
failure is ignored, never escalated. -/
def compensate (ok : LedgerOp → Bool) (applied : List EgressIntent) :
    List (LedgerOp × Bool) :=
  applied.map (fun e => (LedgerOp.increase e, ok (LedgerOp.increase e)))

/-- Modelled from the spec: the egress phase of one dispense saga
execution.  On a mutation failure the already-applied prefix is
compensated before the failure is surfaced (returned flag `false`); on
full success no compensation is issued (flag `true`).  The trace lists
every issued ledger call in issue order, so every compensating call in it
precedes the surfaced result. -/
def dispenseEgress (ok : LedgerOp → Bool) (intents : List EgressIntent) :
    List (LedgerOp × Bool) × Bool :=
  let r := applyEgress ok intents
  match r.2.2 with
  | none => (r.2.1, true)
  | some _ => (r.2.1 ++ compensate ok r.1, false)

/-! ## Concrete downstream fixtures for the scenarios -/

/-- A downstream world where the prescription service is unreachable
(every fetch throws `ECONNREFUSED`) and the rest answers trivially. -/
def dsEmpty : Downstream :=
  { receta := fun _ => .error "ECONNREFUSED",
    stockSuc := fun _ _ => .ok [],
    stockAll := fun _ => .ok [],
    healthInventario := .ok (),
    healthRecetas := .ok (),
    healthCatalogo := .ok () }

/-- The spec's `R2` scenario: prescription `R2` at location `S1` with
line items `[(PROD-1, 3), (PROD-2, 10)]`; stock at `S1` is `PROD-1: 5`,
`PROD-2: 2`. -/
def dsR2 : Downstream :=
  { receta := fun id =>
      if id = "R2" then .ok ⟨"R2", "S1", some [⟨"PROD-1", 3⟩, ⟨"PROD-2", 10⟩]⟩
      else .error "404",
    stockSuc := fun p suc =>
      if p = "PROD-1" ∧ suc = "S1" then .ok [⟨"S1", some 5, none⟩]
      else if p = "PROD-2" ∧ suc = "S1" then .ok [⟨"S1", some 2, none⟩]
      else .ok [],
    stockAll := fun p =>
      if p = "PROD-1" then .ok [⟨"S1", some 5, none⟩]
      else if p = "PROD-2" then .ok [⟨"S1", some 2, none⟩]
      else .ok [],
    healthInventario := .ok (),
    healthRecetas := .ok (),
    healthCatalogo := .ok () }

/-- A prescription `R0` whose detail list has zero line items. -/
def dsVacia : Downstream :=
  { receta := fun id =>
      if id = "R0" then .ok ⟨"R0", "S1", some []⟩ else .error "404",
    stockSuc := fun _ _ => .ok [],
    stockAll := fun _ => .ok [],
    healthInventario := .ok (),
    healthRecetas := .ok (),
    healthCatalogo := .ok () }

/-- §4.3's description of the all-locations reconciliation, per line:
availability is the sum across all returned locations and the suggested
location is the first whose own availability meets the requested quantity
(none if no location does).  Stated for comparison against
`validacionItems`. -/
def reconcileSpec (rows : String → List StockRow) (det : List DetalleItem) : List ItemValG :=
  det.map (fun it =>
    ⟨it.id_producto, it.cantidad, sumAvail (rows it.id_producto),
     ((rows it.id_producto).find? (fun x => it.cantidad ≤ avail x)).map
       (·.id_sucursal)⟩)

/-- The per-product all-location stock of the `R2` world, as a function. -/
def rowsR2 : String → List StockRow := fun p =>
  if p = "PROD-1" then [⟨"S1", some 5, none⟩]
  else if p = "PROD-2" then [⟨"S1", some 2, none⟩]
  else []

/-! ## Helper lemmas about the maps and the cache -/

theorem mapGet_cons {α : Type} (p : String × α) (m : List (String × α)) (k : String) :
    mapGet (p :: m) k = if p.1 = k then some p.2 else mapGet m k := by
  by_cases h : p.1 = k
  · simp [mapGet, List.find?, h]
  · have hb : (p.1 == k) = false := by simp [h]
    simp [mapGet, List.find?, hb, h]

theorem mapDel_cons {α : Type} (p : String × α) (m : List (String × α)) (k' : String) :
    mapDel (p :: m) k' = if p.1 = k' then mapDel m k' else p :: mapDel m k' := by
  simp only [mapDel, List.filter_cons]
  by_cases h : p.1 = k' <;> simp [h]

theorem mapGet_del_ne {α : Type} (m : List (String × α)) {k k' : String} (h : k ≠ k') :
    mapGet (mapDel m k') k = mapGet m k := by
  induction m with
  | nil => rfl
  | cons p rest ih =>
      rw [mapDel_cons]
      by_cases hp : p.1 = k'
      · have hnk : ¬ p.1 = k := fun hk => h (hk.symm.trans hp)
        rw [if_pos hp, ih, mapGet_cons, if_neg hnk]
      · rw [if_neg hp, mapGet_cons, mapGet_cons, ih]

theorem mapGet_set_self {α : Type} (m : List (String × α)) (k : String) (v : α) :
    mapGet (mapSet m k v) k = some v := by
  rw [mapSet, mapGet_cons, if_pos rfl]

theorem mapGet_set_ne {α : Type} (m : List (String × α)) {k k' : String} (v : α)
    (h : k ≠ k') : mapGet (mapSet m k' v) k = mapGet m k := by
  rw [mapSet, mapGet_cons, if_neg (fun hk => h hk.symm), mapGet_del_ne m h]

theorem idemGet_of_none {m : List (String × IdemEntry)} (now : Nat) {k : String}
    (hm : mapGet m k = none) : idemGet m now k = (none, m) := by
  unfold idemGet
  rw [hm]

theorem idemGet_of_some {m : List (String × IdemEntry)} (now : Nat) {k : String}
    {it : IdemEntry} (hm : mapGet m k = some it) :
    idemGet m now k =
      if IDEM_TTL_MS < now - it.ts then (none, mapDel m k) else (some it.result, m) := by
  unfold idemGet
  rw [hm]

theorem idemGet_snd_of_fst_some {m : List (String × IdemEntry)} {now : Nat} {k : String}
    {r : RespBody} (h : (idemGet m now k).1 = some r) : (idemGet m now k).2 = m := by
  cases hm : mapGet m k with
  | none => rw [idemGet_of_none now hm]
  | some it =>
      rw [idemGet_of_some now hm] at h ⊢
      by_cases ht : IDEM_TTL_MS < now - it.ts
      · rw [if_pos ht] at h
        exact absurd h (by simp)
      · rw [if_neg ht]

theorem idemGet_fst_congr {m m' : List (String × IdemEntry)} (now : Nat) {k : String}
    (h : mapGet m' k = mapGet m k) : (idemGet m' now k).1 = (idemGet m now k).1 := by
  cases hm : mapGet m k with
  | none =>
      rw [idemGet_of_none now hm, idemGet_of_none now (h.trans hm)]
  | some it =>
      rw [idemGet_of_some now hm, idemGet_of_some now (h.trans hm)]
      by_cases ht : IDEM_TTL_MS < now - it.ts
      · rw [if_pos ht, if_pos ht]
      · rw [if_neg ht, if_neg ht]

theorem idemGet_snd_cases (m : List (String × IdemEntry)) (now : Nat) (k' : String) :
    (idemGet m now k').2 = m ∨ (idemGet m now k').2 = mapDel m k' := by
  cases hm : mapGet m k' with
  | none =>
      rw [idemGet_of_none now hm]
      exact .inl rfl
  | some it =>
      rw [idemGet_of_some now hm]
      by_cases ht : IDEM_TTL_MS < now - it.ts
      · rw [if_pos ht]
        exact .inr rfl
      · rw [if_neg ht]
        exact .inl rfl

theorem sumAvail_eq_sum (rows : List StockRow) : sumAvail rows = (rows.map avail).sum := by
  unfold sumAvail
  suffices h : ∀ (l : List StockRow) (n : Nat),
      l.foldl (fun a s => a + avail s) n = n + (l.map avail).sum by
    simpa using h rows 0
  intro l
  induction l with
  | nil => simp
  | cons x xs ih =>
      intro n
      rw [List.foldl_cons, ih, List.map_cons, List.sum_cons]
      omega
/-! ## Path equations for the handlers -/

theorem recetaValidar_eq_noid {body_id : Option String} (ds : Downstream) (c : String)
    (h : jsOrNull body_id = none) :
    recetaValidar ds c body_id =
      (⟨400, .validationError "VALIDATION_ERROR" "id_receta requerido"⟩, []) := by
  unfold recetaValidar
  rw [h]

theorem recetaValidar_eq_exec {body_id : Option String} {id : String} (ds : Downstream)
    (c : String) (h : jsOrNull body_id = some id) :
    recetaValidar ds c body_id = validarExec ds c id := by
  unfold recetaValidar
  rw [h]

theorem validarExec_eq_recErr {ds : Downstream} {id e : String} (c : String)
    (hr : ds.receta id = .error e) :
    validarExec ds c id =
      (⟨502, .downstreamError "DOWNSTREAM_ERROR" "Fallo validando receta" e⟩,
       [Call.getReceta id c]) := by
  unfold validarExec
  rw [hr]

theorem validarExec_eq_exec2 {ds : Downstream} {id : String} {receta : Receta} (c : String)
    (hr : ds.receta id = .ok receta) :
    validarExec ds c id = validarExec2 ds c id receta := by
  unfold validarExec
  rw [hr]

theorem validarExec2_eq_itemsErr {ds : Downstream} {id e : String} {receta : Receta}
    (c : String)
    (hv : validarItems ds receta.id_sucursal (receta.detalle.getD []) = .error e) :
    validarExec2 ds c id receta =
      (⟨502, .downstreamError "DOWNSTREAM_ERROR" "Fallo validando receta" e⟩,
       validarCalls c id receta) := by
  unfold validarExec2
  rw [hv]

theorem validarExec2_eq_ok {ds : Downstream} {id : String} {receta : Receta}
    {items : List ItemVal} (c : String)
    (hv : validarItems ds receta.id_sucursal (receta.detalle.getD []) = .ok items) :
    validarExec2 ds c id receta =
      (⟨if items.all (·.ok) then 200 else 207,
        .validarResult id items (estadoSugeridoVal items)⟩,
       validarCalls c id receta) := by
  unfold validarExec2
  rw [hv]

theorem recetaValidacion_eq_recErr {ds : Downstream} {id e : String} (c : String)
    (hr : ds.receta id = .error e) :
    recetaValidacion ds c id =
      (⟨502, .downstreamError "DOWNSTREAM_ERROR" "Fallo consultando receta/stock" e⟩,
       [Call.getReceta id c]) := by
  unfold recetaValidacion
  rw [hr]

theorem recetaValidacion_eq_exec2 {ds : Downstream} {id : String} {receta : Receta}
    (c : String) (hr : ds.receta id = .ok receta) :
    recetaValidacion ds c id = validacionExec2 ds c id receta := by
  unfold recetaValidacion
  rw [hr]

theorem validacionExec2_eq_itemsErr {ds : Downstream} {id e : String} {receta : Receta}
    (c : String) (hv : validacionItems ds (receta.detalle.getD []) = .error e) :
    validacionExec2 ds c id receta =
      (⟨502, .downstreamError "DOWNSTREAM_ERROR" "Fallo consultando receta/stock" e⟩,
       validacionCalls c id receta) := by
  unfold validacionExec2
  rw [hv]

theorem validacionExec2_eq_ok {ds : Downstream} {id : String} {receta : Receta}
    {items : List ItemValG} (c : String)
    (hv : validacionItems ds (receta.detalle.getD []) = .ok items) :
    validacionExec2 ds c id receta =
      (⟨200, .validacionResult receta.id_receta (estadoSugeridoValG items) items⟩,
       validacionCalls c id receta) := by
  unfold validacionExec2
  rw [hv]

theorem reservaExec_eq_recErr {ds : Downstream} {id e : String} (now : Nat)
    (st1 : OrchState) (c : String) (idem : Option String)
    (hr : ds.receta id = .error e) :
    reservaExec ds now st1 c idem id =
      (⟨502, .downstreamError "DOWNSTREAM_ERROR" "Fallo al reservar" e⟩, st1,
       [Call.getReceta id c]) := by
  unfold reservaExec
  rw [hr]

theorem reservaExec_eq_exec2 {ds : Downstream} {id : String} {receta : Receta} (now : Nat)
    (st1 : OrchState) (c : String) (idem : Option String)
    (hr : ds.receta id = .ok receta) :
    reservaExec ds now st1 c idem id = reservaExec2 ds now st1 c idem id receta := by
  unfold reservaExec
  rw [hr]

theorem reservaExec2_eq_chkErr {ds : Downstream} {id e : String} {receta : Receta}
    (now : Nat) (st1 : OrchState) {c : String} (idem : Option String)
    (hc : (reservaCheck ds c receta.id_sucursal (receta.detalle.getD [])).2 = .error e) :
    reservaExec2 ds now st1 c idem id receta =
      (⟨502, .downstreamError "DOWNSTREAM_ERROR" "Fallo al reservar" e⟩, st1,
       Call.getReceta id c ::
         (reservaCheck ds c receta.id_sucursal (receta.detalle.getD [])).1) := by
  unfold reservaExec2
  rw [hc]

theorem reservaExec2_eq_rej {ds : Downstream} {id : String} {receta : Receta}
    {f : Faltante} {fs : List Faltante} (now : Nat)
    (st1 : OrchState) {c : String} (idem : Option String)
    (hc : (reservaCheck ds c receta.id_sucursal (receta.detalle.getD [])).2 = .ok (f :: fs)) :
    reservaExec2 ds now st1 c idem id receta =
      (⟨409, .stockInsuficiente "STOCK_INSUFICIENTE" "No alcanza para reservar" (f :: fs)⟩,
       st1,
       Call.getReceta id c ::
         (reservaCheck ds c receta.id_sucursal (receta.detalle.getD [])).1) := by
  unfold reservaExec2
  rw [hc]

theorem reservaExec2_eq_ok {ds : Downstream} {id : String} {receta : Receta} (now : Nat)
    (st1 : OrchState) {c : String} (idem : Option String)
    (hc : (reservaCheck ds c receta.id_sucursal (receta.detalle.getD [])).2 = .ok []) :
    reservaExec2 ds now st1 c idem id receta =
      (⟨200, .reservaOk id RESERVA_TTL_MS⟩, commitState st1 now idem id receta,
       Call.getReceta id c ::
         (reservaCheck ds c receta.id_sucursal (receta.detalle.getD [])).1) := by
  unfold reservaExec2
  rw [hc]

theorem reservaStock_eq_noid {body_id : Option String} (ds : Downstream) (now : Nat)
    (st : OrchState) (c : String) (idem : Option String)
    (h : jsOrNull body_id = none) :
    reservaStock ds now st c idem body_id =
      (⟨400, .validationError "VALIDATION_ERROR" "id_receta requerido"⟩, st, []) := by
  unfold reservaStock
  rw [h]

theorem reservaStock_eq_noidem {body_id : Option String} {id : String} (ds : Downstream)
    (now : Nat) (st : OrchState) (c : String)
    (h : jsOrNull body_id = some id) :
    reservaStock ds now st c none body_id = reservaExec ds now st c none id := by
  unfold reservaStock
  rw [h]

theorem reservaStock_eq_gate {body_id : Option String} {id : String} (ds : Downstream)
    (now : Nat) (st : OrchState) (c k : String)
    (h : jsOrNull body_id = some id) :
    reservaStock ds now st c (some k) body_id = reservaGate ds now st c k id := by
  unfold reservaStock
  rw [h]

theorem reservaGate_eq_replay {k : String} {cache : RespBody}
    {m1 : List (String × IdemEntry)} (ds : Downstream)
    {now : Nat} {st : OrchState} (c id : String)
    (hk : idemGet st.memIdem now k = (some cache, m1)) :
    reservaGate ds now st c k id = (⟨200, cache⟩, { st with memIdem := m1 }, []) := by
  unfold reservaGate
  rw [hk]

theorem reservaGate_eq_fresh {k : String} {m1 : List (String × IdemEntry)} (ds : Downstream)
    {now : Nat} {st : OrchState} (c id : String)
    (hk : idemGet st.memIdem now k = (none, m1)) :
    reservaGate ds now st c k id =
      reservaExec ds now { st with memIdem := m1 } c (some k) id := by
  unfold reservaGate
  rw [hk]

/-! ## C8: readiness aggregation -/

/-- C8: the readiness check `GET /readyz` answers `200 {status:"ready"}`
iff all three downstream health probes (inventario, recetas, catalogo)
succeed within the timeout; if any probe fails or times out it answers
`503` with code `DOWNSTREAM_UNAVAILABLE`. -/
theorem readyz_ready_iff_all_probes_ok (ds : Downstream) (c : String) :
    ((readyz ds c).1 = ⟨200, .ready⟩ ↔
      (exOk ds.healthInventario ∧ exOk ds.healthRecetas ∧ exOk ds.healthCatalogo))
    ∧ ((readyz ds c).1 = ⟨200, .ready⟩ ∨
        (readyz ds c).1 =
          ⟨503, .downstreamUnavailable "DOWNSTREAM_UNAVAILABLE"
            "Algún servicio no responde"⟩) := by
  have h : ∀ a b d : Except String Unit,
      (readyVerdict a b d = ⟨200, .ready⟩ ↔ (exOk a ∧ exOk b ∧ exOk d))
      ∧ (readyVerdict a b d = ⟨200, .ready⟩ ∨
          readyVerdict a b d =
            ⟨503, .downstreamUnavailable "DOWNSTREAM_UNAVAILABLE"
              "Algún servicio no responde"⟩) := by
    intro a b d
    cases a <;> cases b <;> cases d <;> simp [readyVerdict, exOk]
  exact h ds.healthInventario ds.healthRecetas ds.healthCatalogo

/-! ## C10: the reservation store is write-only -/

theorem commitState_memIdem (st1 : OrchState) (now : Nat) (idem : Option String)
    (id : String) (receta : Receta) :
    (commitState st1 now idem id receta).memIdem =
      (match idem with
       | some k => idemSet st1.memIdem now k (.reservaOk id RESERVA_TTL_MS)
       | none => st1.memIdem) := by
  cases idem <;> rfl

theorem reservaExec_memReservas_indep (ds : Downstream) (now : Nat)
    (m : List (String × IdemEntry)) (res1 res2 : List (String × Reserva)) (c : String)
    (idem : Option String) (id : String) :
    (reservaExec ds now ⟨m, res1⟩ c idem id).1 = (reservaExec ds now ⟨m, res2⟩ c idem id).1
    ∧ (reservaExec ds now ⟨m, res1⟩ c idem id).2.1.memIdem =
        (reservaExec ds now ⟨m, res2⟩ c idem id).2.1.memIdem
    ∧ (reservaExec ds now ⟨m, res1⟩ c idem id).2.2 =
        (reservaExec ds now ⟨m, res2⟩ c idem id).2.2 := by
  cases hr : ds.receta id with
  | error e =>
      rw [reservaExec_eq_recErr now ⟨m, res1⟩ c idem hr,
          reservaExec_eq_recErr now ⟨m, res2⟩ c idem hr]
      exact ⟨rfl, rfl, rfl⟩
  | ok receta =>
      rw [reservaExec_eq_exec2 now ⟨m, res1⟩ c idem hr,
          reservaExec_eq_exec2 now ⟨m, res2⟩ c idem hr]
      cases hc : (reservaCheck ds c receta.id_sucursal (receta.detalle.getD [])).2 with
      | error e =>
          rw [reservaExec2_eq_chkErr now ⟨m, res1⟩ idem hc,
              reservaExec2_eq_chkErr now ⟨m, res2⟩ idem hc]
          exact ⟨rfl, rfl, rfl⟩
      | ok fs =>
          cases fs with
          | nil =>
              rw [reservaExec2_eq_ok now ⟨m, res1⟩ idem hc,
                  reservaExec2_eq_ok now ⟨m, res2⟩ idem hc]
              refine ⟨rfl, ?_, rfl⟩
              rw [commitState_memIdem, commitState_memIdem]
          | cons f fs' =>
              rw [reservaExec2_eq_rej now ⟨m, res1⟩ idem hc,
                  reservaExec2_eq_rej now ⟨m, res2⟩ idem hc]
              exact ⟨rfl, rfl, rfl⟩

/-- C10: the reservation store `memReservas` is write-only — no handler
ever reads it, so the response, the resulting idempotency cache and the
issued downstream calls of `POST /reserva-stock` (the only endpoint that
touches it) are identical whether the reservation map is empty or
arbitrarily populated. -/
theorem memReservas_write_only_noninterference (ds : Downstream) (now : Nat)
    (m : List (String × IdemEntry)) (res1 res2 : List (String × Reserva)) (c : String)
    (idem body_id : Option String) :
    (reservaStock ds now ⟨m, res1⟩ c idem body_id).1 =
      (reservaStock ds now ⟨m, res2⟩ c idem body_id).1
    ∧ (reservaStock ds now ⟨m, res1⟩ c idem body_id).2.1.memIdem =
        (reservaStock ds now ⟨m, res2⟩ c idem body_id).2.1.memIdem
    ∧ (reservaStock ds now ⟨m, res1⟩ c idem body_id).2.2 =
        (reservaStock ds now ⟨m, res2⟩ c idem body_id).2.2 := by
  cases hb : jsOrNull body_id with
  | none =>
      rw [reservaStock_eq_noid ds now ⟨m, res1⟩ c idem hb,
          reservaStock_eq_noid ds now ⟨m, res2⟩ c idem hb]
      exact ⟨rfl, rfl, rfl⟩
  | some id =>
      cases idem with
      | none =>
          rw [reservaStock_eq_noidem ds now ⟨m, res1⟩ c hb,
              reservaStock_eq_noidem ds now ⟨m, res2⟩ c hb]
          exact reservaExec_memReservas_indep ds now m res1 res2 c none id
      | some k =>
          rw [reservaStock_eq_gate ds now ⟨m, res1⟩ c k hb,
              reservaStock_eq_gate ds now ⟨m, res2⟩ c k hb]
          rcases hk : idemGet m now k with ⟨cf, m1⟩
          cases cf with
          | some cache =>
              rw [reservaGate_eq_replay ds c id hk, reservaGate_eq_replay ds c id hk]
              exact ⟨rfl, rfl, rfl⟩
          | none =>
              rw [reservaGate_eq_fresh ds c id hk, reservaGate_eq_fresh ds c id hk]
              exact reservaExec_memReservas_indep ds now m1 res1 res2 c (some k) id

/-! ## C1: idempotent replay -/

theorem reservaExec_post_idemGet (ds : Downstream) (now : Nat) (st1 : OrchState)
    (c : String) (idem : Option String) (id k : String) (r : RespBody)
    (hnk : idem ≠ some k)
    (h1 : (idemGet st1.memIdem now k).1 = some r) :
    (idemGet (reservaExec ds now st1 c idem id).2.1.memIdem now k).1 = some r := by
  cases hr : ds.receta id with
  | error e =>
      rw [reservaExec_eq_recErr now st1 c idem hr]
      exact h1
  | ok receta =>
      rw [reservaExec_eq_exec2 now st1 c idem hr]
      cases hc : (reservaCheck ds c receta.id_sucursal (receta.detalle.getD [])).2 with
      | error e =>
          rw [reservaExec2_eq_chkErr now st1 idem hc]
          exact h1
      | ok fs =>
          cases fs with
          | cons f fs' =>
              rw [reservaExec2_eq_rej now st1 idem hc]
              exact h1
          | nil =>
              rw [reservaExec2_eq_ok now st1 idem hc]
              cases idem with
              | none =>
                  rw [commitState_memIdem]
                  exact h1
              | some k2 =>
                  rw [commitState_memIdem]
                  have hk2 : k ≠ k2 := fun hkk => hnk (by rw [hkk])
                  have hmg : mapGet (idemSet st1.memIdem now k2
                      (.reservaOk id RESERVA_TTL_MS)) k = mapGet st1.memIdem k :=
                    mapGet_set_ne st1.memIdem ⟨now, .reservaOk id RESERVA_TTL_MS⟩ hk2
                  rw [idemGet_fst_congr now hmg]
                  exact h1

/-- C1 (amended): for every `POST /reserva-stock` request that carries a
valid `id_receta` and an idempotency key holding an unexpired record, the
handler returns exactly the previously stored result (HTTP 200), issues no
downstream call, and leaves the whole state unchanged; moreover no request
whatsoever overwrites or evicts that unexpired record: after any request,
a lookup for the key still replays the same stored result.  (The claim as
frozen also covers requests lacking `id_receta`; those are answered 400
before the idempotency gate — see the counterexample.) -/
theorem reservaStock_idem_replay_no_overwrite (ds : Downstream) (now : Nat)
    (st : OrchState) (c k id : String) (r : RespBody)
    (hid : id ≠ "")
    (h : (idemGet st.memIdem now k).1 = some r) :
    reservaStock ds now st c (some k) (some id) = (⟨200, r⟩, st, [])
    ∧ ∀ (idem body_id : Option String),
        (idemGet (reservaStock ds now st c idem body_id).2.1.memIdem now k).1 = some r := by
  have hb : jsOrNull (some id) = some id := by simp [jsOrNull, hid]
  have hsnd : (idemGet st.memIdem now k).2 = st.memIdem := idemGet_snd_of_fst_some h
  have hpair : idemGet st.memIdem now k = (some r, st.memIdem) := Prod.ext h hsnd
  constructor
  · rw [reservaStock_eq_gate ds now st c k hb, reservaGate_eq_replay ds c id hpair]
  · intro idem body_id
    cases hb2 : jsOrNull body_id with
    | none =>
        rw [reservaStock_eq_noid ds now st c idem hb2]
        exact h
    | some id2 =>
        cases idem with
        | none =>
            rw [reservaStock_eq_noidem ds now st c hb2]
            exact reservaExec_post_idemGet ds now st c none id2 k r (by simp) h
        | some k2 =>
            rw [reservaStock_eq_gate ds now st c k2 hb2]
            rcases hk2 : idemGet st.memIdem now k2 with ⟨cf, m1⟩
            cases cf with
            | some cache =>
                rw [reservaGate_eq_replay ds c id2 hk2]
                have hfst : (idemGet st.memIdem now k2).1 = some cache := by rw [hk2]
                have hm0 : (idemGet st.memIdem now k2).2 = st.memIdem :=
                  idemGet_snd_of_fst_some hfst
                rw [hk2] at hm0
                have hm1 : m1 = st.memIdem := hm0
                rw [hm1]
                exact h
            | none =>
                rw [reservaGate_eq_fresh ds c id2 hk2]
                have hne : (some k2 : Option String) ≠ some k := by
                  intro heq
                  injection heq with heq2
                  rw [heq2] at hk2
                  rw [hk2] at h
                  exact absurd h (by simp)
                have h1 : (idemGet m1 now k).1 = some r := by
                  rcases idemGet_snd_cases st.memIdem now k2 with hs | hs
                  · rw [hk2] at hs
                    have hs2 : m1 = st.memIdem := hs
                    rw [hs2]
                    exact h
                  · rw [hk2] at hs
                    have hs2 : m1 = mapDel st.memIdem k2 := hs
                    have hkk : k ≠ k2 := fun hkk => hne (by rw [hkk])
                    rw [hs2, idemGet_fst_congr now (mapGet_del_ne st.memIdem hkk)]
                    exact h
                exact reservaExec_post_idemGet ds now ⟨m1, st.memReservas⟩ c (some k2) id2 k r
                  hne h1

/-- C1 counterexample: a `POST /reserva-stock` request that carries an
idempotency key holding an unexpired record but lacks `id_receta` is
answered 400 `VALIDATION_ERROR` — not the stored result — because the
`id_receta` guard precedes the idempotency gate.  (No downstream call is
made and the record is untouched, but "returns exactly the previously
stored result" fails for such a request.) -/
theorem reservaStock_replay_counterexample :
    (idemGet [("K", ⟨0, .reservaOk "R1" RESERVA_TTL_MS⟩)] 1000 "K").1 =
        some (.reservaOk "R1" RESERVA_TTL_MS)
    ∧ reservaStock dsEmpty 1000 ⟨[("K", ⟨0, .reservaOk "R1" RESERVA_TTL_MS⟩)], []⟩
        "c" (some "K") none =
        (⟨400, .validationError "VALIDATION_ERROR" "id_receta requerido"⟩,
         ⟨[("K", ⟨0, .reservaOk "R1" RESERVA_TTL_MS⟩)], []⟩, [])
    ∧ (⟨400, .validationError "VALIDATION_ERROR" "id_receta requerido"⟩ : Response) ≠
        ⟨200, .reservaOk "R1" RESERVA_TTL_MS⟩ := by
  refine ⟨by decide, rfl, by decide⟩

/-- C1 witness: the amended theorem applied at a concrete cached entry. -/
theorem reservaStock_idem_replay_no_overwrite_witness :
    ("R1" : String) ≠ ""
    ∧ (idemGet [("K", ⟨0, .reservaOk "R1" RESERVA_TTL_MS⟩)] 1000 "K").1 =
        some (.reservaOk "R1" RESERVA_TTL_MS)
    ∧ reservaStock dsEmpty 1000 ⟨[("K", ⟨0, .reservaOk "R1" RESERVA_TTL_MS⟩)], []⟩
        "c" (some "K") (some "R1") =
        (⟨200, .reservaOk "R1" RESERVA_TTL_MS⟩,
         ⟨[("K", ⟨0, .reservaOk "R1" RESERVA_TTL_MS⟩)], []⟩, []) :=
  ⟨by decide, by decide,
   (reservaStock_idem_replay_no_overwrite dsEmpty 1000
      ⟨[("K", ⟨0, .reservaOk "R1" RESERVA_TTL_MS⟩)], []⟩ "c" "K" "R1"
      (.reservaOk "R1" RESERVA_TTL_MS) (by decide) (by decide)).1⟩

/-! ## C3: rejections are not cached -/

theorem reservaExec_non_success_state (ds : Downstream) (now : Nat) (st1 : OrchState)
    (c : String) (idem : Option String) (id : String)
    (h : (reservaExec ds now st1 c idem id).1.status = 409 ∨
         (reservaExec ds now st1 c idem id).1.status = 502) :
    (reservaExec ds now st1 c idem id).2.1 = st1 := by
  cases hr : ds.receta id with
  | error e =>
      rw [reservaExec_eq_recErr now st1 c idem hr]
  | ok receta =>
      rw [reservaExec_eq_exec2 now st1 c idem hr] at h ⊢
      cases hc : (reservaCheck ds c receta.id_sucursal (receta.detalle.getD [])).2 with
      | error e =>
          rw [reservaExec2_eq_chkErr now st1 idem hc]
      | ok fs =>
          cases fs with
          | nil =>
              rw [reservaExec2_eq_ok now st1 idem hc] at h
              rcases h with h | h <;> simp at h
          | cons f fs' =>
              rw [reservaExec2_eq_rej now st1 idem hc]

/-- C3 (amended): a rejected (409 `STOCK_INSUFICIENTE`) or failed (502
`DOWNSTREAM_ERROR`) reservation is **not** stored under the supplied
idempotency key: after such a response the idempotency cache equals the
lazily-evicted cache the gate produced, so a retry with the same key
re-executes the downstream checks instead of replaying the rejection. -/
theorem reservaStock_non_success_not_cached (ds : Downstream) (now : Nat)
    (st : OrchState) (c k : String) (body_id : Option String)
    (h : (reservaStock ds now st c (some k) body_id).1.status = 409 ∨
         (reservaStock ds now st c (some k) body_id).1.status = 502) :
    (reservaStock ds now st c (some k) body_id).2.1.memIdem =
      (idemGet st.memIdem now k).2 := by
  cases hb : jsOrNull body_id with
  | none =>
      rw [reservaStock_eq_noid ds now st c (some k) hb] at h
      rcases h with h | h <;> simp at h
  | some id =>
      rw [reservaStock_eq_gate ds now st c k hb] at h ⊢
      rcases hk : idemGet st.memIdem now k with ⟨cf, m1⟩
      cases cf with
      | some cache =>
          rw [reservaGate_eq_replay ds c id hk] at h
          rcases h with h | h <;> simp at h
      | none =>
          rw [reservaGate_eq_fresh ds c id hk] at h ⊢
          have hpost := reservaExec_non_success_state ds now
            ⟨m1, st.memReservas⟩ c (some k) id h
          rw [hpost]

/-- C3 counterexample: the `R2` reservation is rejected 409
`STOCK_INSUFICIENTE` while an idempotency key `K3` was supplied, yet the
post-state idempotency cache holds nothing under `K3` (the rejection is
returned but never stored, so a retry re-executes all downstream calls).
The claim's "the rejection result is also stored under that key" is false. -/
theorem rejection_not_cached_counterexample :
    reservaStock dsR2 0 ⟨[], []⟩ "c" (some "K3") (some "R2") =
      (⟨409, .stockInsuficiente "STOCK_INSUFICIENTE" "No alcanza para reservar"
          [⟨"PROD-2", 10, 2⟩]⟩,
       ⟨[], []⟩,
       [Call.getReceta "R2" "c", Call.getStock "PROD-1" (some "S1") "c",
        Call.getStock "PROD-2" (some "S1") "c"])
    ∧ mapGet (reservaStock dsR2 0 ⟨[], []⟩ "c" (some "K3")
        (some "R2")).2.1.memIdem "K3" = none := by
  exact ⟨by decide, by decide⟩

/-- C3 witness: the amended theorem applied to the rejected `R2`
reservation. -/
theorem reservaStock_non_success_not_cached_witness :
    ((reservaStock dsR2 0 ⟨[], []⟩ "cw" (some "K4") (some "R2")).1.status = 409 ∨
      (reservaStock dsR2 0 ⟨[], []⟩ "cw" (some "K4") (some "R2")).1.status = 502)
    ∧ (reservaStock dsR2 0 ⟨[], []⟩ "cw" (some "K4") (some "R2")).2.1.memIdem =
        (idemGet [] 0 "K4").2 :=
  ⟨Or.inl (by decide),
   reservaStock_non_success_not_cached dsR2 0 ⟨[], []⟩ "cw" "K4" (some "R2")
     (Or.inl (by decide))⟩

/-! ## C4: prescriptions with zero line items -/

/-- C4 (amended): a prescription whose detail list has zero line items
**passes** the validation-gated operations vacuously instead of failing:
`POST /receta/validar` answers 200 with verdict `VALIDADA`, and a
reservation request (here without replay) proceeds, stores a reservation
and answers `ok`. -/
theorem empty_receta_vacuously_validates (ds : Downstream) (c id : String)
    (receta : Receta) (st : OrchState) (now : Nat)
    (hid : id ≠ "") (hr : ds.receta id = .ok receta)
    (hdet : receta.detalle.getD [] = []) :
    recetaValidar ds c (some id) =
      (⟨200, .validarResult id [] "VALIDADA"⟩, [Call.getReceta id c])
    ∧ reservaStock ds now st c none (some id) =
      (⟨200, .reservaOk id RESERVA_TTL_MS⟩,
       ⟨st.memIdem, mapSet st.memReservas id ⟨now + RESERVA_TTL_MS, receta.detalle⟩⟩,
       [Call.getReceta id c]) := by
  have hb : jsOrNull (some id) = some id := by simp [jsOrNull, hid]
  have hv : validarItems ds receta.id_sucursal (receta.detalle.getD []) = .ok [] := by
    rw [hdet]
    simp [validarItems]
  have hchk : (reservaCheck ds c receta.id_sucursal (receta.detalle.getD [])).2 = .ok [] := by
    rw [hdet]
    simp [reservaCheck]
  constructor
  · rw [recetaValidar_eq_exec ds c hb, validarExec_eq_exec2 c hr, validarExec2_eq_ok c hv]
    simp [validarCalls, hdet, estadoSugeridoVal]
  · rw [reservaStock_eq_noidem ds now st c hb, reservaExec_eq_exec2 now st c none hr,
        reservaExec2_eq_ok now st none hchk]
    simp [commitState, hdet, reservaCheck]

/-- C4 counterexample: prescription `R0` has zero line items, yet
pre-validation answers 200 `VALIDADA` and the reservation proceeds,
stores a reservation and answers `ok:true` — refuting "never proceeds
further (no reservation is created, no VALIDADA verdict is produced)". -/
theorem empty_receta_validates_counterexample :
    recetaValidar dsVacia "c" (some "R0") =
      (⟨200, .validarResult "R0" [] "VALIDADA"⟩, [Call.getReceta "R0" "c"])
    ∧ reservaStock dsVacia 0 ⟨[], []⟩ "c" none (some "R0") =
      (⟨200, .reservaOk "R0" RESERVA_TTL_MS⟩,
       ⟨[], [("R0", ⟨RESERVA_TTL_MS, some []⟩)]⟩,
       [Call.getReceta "R0" "c"]) :=
  ⟨by decide, by decide⟩

/-- C4 witness: the amended theorem applied to the concrete empty
prescription `R0`. -/
theorem empty_receta_vacuously_validates_witness :
    recetaValidar dsVacia "cw" (some "R0") =
      (⟨200, .validarResult "R0" [] "VALIDADA"⟩, [Call.getReceta "R0" "cw"])
    ∧ reservaStock dsVacia 7 ⟨[], []⟩ "cw" none (some "R0") =
      (⟨200, .reservaOk "R0" RESERVA_TTL_MS⟩,
       ⟨[], mapSet [] "R0" ⟨7 + RESERVA_TTL_MS, some []⟩⟩,
       [Call.getReceta "R0" "cw"]) :=
  empty_receta_vacuously_validates dsVacia "cw" "R0" ⟨"R0", "S1", some []⟩ ⟨[], []⟩ 7
    (by decide) (by rfl) (by rfl)

/-! ## C6: the R2 concrete scenario -/

/-- C6 counterexample: for the spec's `R2` scenario (lines
`[(PROD-1, 3), (PROD-2, 10)]`, stock `PROD-1: 5, PROD-2: 2`),
pre-validation reports `estado_sugerido = "PARCIAL"` (status 207), not
`"RECHAZADA"` as claimed: `RECHAZADA` would require every line to have
zero availability, and `PROD-1` has 5. -/
theorem scenario_R2_estado_counterexample :
    recetaValidar dsR2 "c" (some "R2") =
      (⟨207, .validarResult "R2"
          [⟨"PROD-1", 3, 5, true⟩, ⟨"PROD-2", 10, 2, false⟩] "PARCIAL"⟩,
       [Call.getReceta "R2" "c", Call.getStock "PROD-1" (some "S1") "c",
        Call.getStock "PROD-2" (some "S1") "c"])
    ∧ ("PARCIAL" : String) ≠ "RECHAZADA" :=
  ⟨by decide, by decide⟩

/-- C6 (amended): in the `R2` scenario pre-validation reports
`estado_sugerido = "PARCIAL"` (only `PROD-2` unsatisfiable, `PROD-1`
satisfiable), and a reservation attempt is rejected 409
`STOCK_INSUFICIENTE` whose shortfall detail lists only `PROD-2`;
no `memReservas` entry is created. -/
theorem scenario_R2_parcial_and_409 :
    recetaValidar dsR2 "d" (some "R2") =
      (⟨207, .validarResult "R2"
          [⟨"PROD-1", 3, 5, true⟩, ⟨"PROD-2", 10, 2, false⟩] "PARCIAL"⟩,
       [Call.getReceta "R2" "d", Call.getStock "PROD-1" (some "S1") "d",
        Call.getStock "PROD-2" (some "S1") "d"])
    ∧ reservaStock dsR2 0 ⟨[], []⟩ "d" none (some "R2") =
      (⟨409, .stockInsuficiente "STOCK_INSUFICIENTE" "No alcanza para reservar"
          [⟨"PROD-2", 10, 2⟩]⟩,
       ⟨[], []⟩,
       [Call.getReceta "R2" "d", Call.getStock "PROD-1" (some "S1") "d",
        Call.getStock "PROD-2" (some "S1") "d"]) :=
  ⟨by decide, by decide⟩

/-! ## C5: no automatic retry in the downstream client -/

/-- C5 (amended): the downstream client (`axios.create` with only a
timeout and redirect limit, no retry interceptor) retries **nothing**: a
read-only call that fails with a transport error is attempted exactly
once and the failure surfaces immediately as the 502 response; mutating
calls are likewise issued exactly once.  Here: the read-only
`GET /receta/:id/validacion` whose prescription fetch fails issues that
single call and nothing else. -/
theorem downstream_call_single_attempt (ds : Downstream) (c id e : String)
    (hr : ds.receta id = .error e) :
    recetaValidacion ds c id =
      (⟨502, .downstreamError "DOWNSTREAM_ERROR" "Fallo consultando receta/stock" e⟩,
       [Call.getReceta id c])
    ∧ (recetaValidacion ds c id).2.length = 1 := by
  have h := recetaValidacion_eq_recErr c hr
  exact ⟨h, by simp [h]⟩

/-- C5 counterexample: the prescription fetch of
`GET /receta/:id/validacion` fails with a transport error
(`ECONNREFUSED`), yet the issued-call trace contains exactly one attempt
— not the two attempts that "retries exactly once before surfacing the
failure" would produce. -/
theorem no_retry_counterexample :
    recetaValidacion dsEmpty "c" "R1" =
      (⟨502, .downstreamError "DOWNSTREAM_ERROR" "Fallo consultando receta/stock"
          "ECONNREFUSED"⟩,
       [Call.getReceta "R1" "c"])
    ∧ (recetaValidacion dsEmpty "c" "R1").2.length = 1
    ∧ (recetaValidacion dsEmpty "c" "R1").2.length ≠ 2 :=
  ⟨by decide, by decide, by decide⟩

/-- C5 witness: the amended theorem applied to the unreachable
prescription service. -/
theorem downstream_call_single_attempt_witness :
    recetaValidacion dsEmpty "w" "R9" =
      (⟨502, .downstreamError "DOWNSTREAM_ERROR" "Fallo consultando receta/stock"
          "ECONNREFUSED"⟩,
       [Call.getReceta "R9" "w"])
    ∧ (recetaValidacion dsEmpty "w" "R9").2.length = 1 :=
  downstream_call_single_attempt dsEmpty "w" "R9" "ECONNREFUSED" (by rfl)

/-! ## C9: 502 payloads and the correlation id -/

/-- C9 (amended): the `POST /receta/validar` 502 `DOWNSTREAM_ERROR`
payload carries only the fixed code, the fixed message and the raw
failure detail; it does not include (or depend on) the request's
correlation id — the response is identical under any two correlation ids,
and on a failed prescription fetch it is exactly the
`{code, message, details}` object. -/
theorem downstream_error_payload_cid_independent (ds : Downstream)
    (body_id : Option String) (c1 c2 : String) :
    (recetaValidar ds c1 body_id).1 = (recetaValidar ds c2 body_id).1
    ∧ ∀ id e, jsOrNull body_id = some id → ds.receta id = .error e →
        (recetaValidar ds c1 body_id).1 =
          ⟨502, .downstreamError "DOWNSTREAM_ERROR" "Fallo validando receta" e⟩ := by
  constructor
  · cases hb : jsOrNull body_id with
    | none =>
        rw [recetaValidar_eq_noid ds c1 hb, recetaValidar_eq_noid ds c2 hb]
    | some id =>
        rw [recetaValidar_eq_exec ds c1 hb, recetaValidar_eq_exec ds c2 hb]
        cases hr : ds.receta id with
        | error e =>
            rw [validarExec_eq_recErr c1 hr, validarExec_eq_recErr c2 hr]
        | ok receta =>
            rw [validarExec_eq_exec2 c1 hr, validarExec_eq_exec2 c2 hr]
            cases hv : validarItems ds receta.id_sucursal (receta.detalle.getD []) with
            | error e =>
                rw [validarExec2_eq_itemsErr c1 hv, validarExec2_eq_itemsErr c2 hv]
            | ok items =>
                rw [validarExec2_eq_ok c1 hv, validarExec2_eq_ok c2 hv]
  · intro id e hb hr
    rw [recetaValidar_eq_exec ds c1 hb, validarExec_eq_recErr c1 hr]

/-- C9 counterexample: a request with correlation id `CORR-1` whose
prescription fetch fails is answered the 502 `DOWNSTREAM_ERROR` payload
`{code, message, details}`, and `CORR-1` appears in none of the payload's
string fields — the payload does not include the correlation id. -/
theorem downstream_error_payload_no_cid_counterexample :
    (recetaValidar dsEmpty "CORR-1" (some "R1")).1 =
      ⟨502, .downstreamError "DOWNSTREAM_ERROR" "Fallo validando receta" "ECONNREFUSED"⟩
    ∧ "CORR-1" ∉ payloadStrings (recetaValidar dsEmpty "CORR-1" (some "R1")).1.body :=
  ⟨by decide, by decide⟩

/-- C9 witness: the amended theorem applied under two distinct correlation
ids with a failing prescription fetch. -/
theorem downstream_error_payload_cid_independent_witness :
    (recetaValidar dsEmpty "CORR-A" (some "R1")).1 =
      (recetaValidar dsEmpty "CORR-B" (some "R1")).1
    ∧ ∀ id e, jsOrNull (some "R1") = some id → dsEmpty.receta id = .error e →
        (recetaValidar dsEmpty "CORR-A" (some "R1")).1 =
          ⟨502, .downstreamError "DOWNSTREAM_ERROR" "Fallo validando receta" e⟩ :=
  downstream_error_payload_cid_independent dsEmpty (some "R1") "CORR-A" "CORR-B"

/-! ## C7: aggregate availability and first-fit suggestion -/

theorem jsOrNull_of_ne {o : Option String} (h : ∀ s, o = some s → s ≠ "") :
    jsOrNull o = o := by
  cases o with
  | none => rfl
  | some s => simp [jsOrNull, h s rfl]

theorem validacionItems_spec (ds : Downstream) (rows : String → List StockRow)
    (hall : ∀ p, ds.stockAll p = .ok (rows p))
    (hne : ∀ p x, x ∈ rows p → x.id_sucursal ≠ "") (det : List DetalleItem) :
    validacionItems ds det = .ok (reconcileSpec rows det) := by
  induction det with
  | nil => simp [validacionItems, reconcileSpec]
  | cons it rest ih =>
      have hj : jsOrNull (((rows it.id_producto).find?
          (fun x => it.cantidad ≤ avail x)).map (·.id_sucursal)) =
          ((rows it.id_producto).find? (fun x => it.cantidad ≤ avail x)).map
            (·.id_sucursal) := by
        apply jsOrNull_of_ne
        intro s hs
        rcases Option.map_eq_some'.mp hs with ⟨x, hx, hxs⟩
        rw [← hxs]
        exact hne it.id_producto x (List.mem_of_find?_eq_some hx)
      simp only [validacionItems, hall it.id_producto, ih, reconcileSpec, List.map_cons]
      rw [hj]

theorem estadoG_validada_iff (items : List ItemValG) :
    estadoSugeridoValG items = "VALIDADA" ↔
      ∀ i ∈ items, i.solicitado ≤ i.disponible := by
  unfold estadoSugeridoValG
  by_cases h : ∀ i ∈ items, i.solicitado ≤ i.disponible
  · rw [if_pos (by simpa [List.all_eq_true] using h)]
    exact iff_of_true rfl h
  · rw [if_neg (by simpa [List.all_eq_true] using h)]
    refine iff_of_false ?_ h
    split <;> decide

/-- C7: for every line item reconciled without a specified location
(`GET /receta/:id/validacion`), the reported availability is the sum of
the per-location stock across all returned locations, the suggested
location is the first returned location whose own availability alone
meets the requested quantity (none if no location does), and — via the
verdict — a line counts as satisfiable iff that sum is at least the
requested quantity.  (Location ids are assumed nonempty, as the handler's
`|| null` collapses an empty id to null.) -/
theorem validacion_aggregate_sum_first_fit (ds : Downstream) (c id : String)
    (receta : Receta) (rows : String → List StockRow)
    (hr : ds.receta id = .ok receta)
    (hall : ∀ p, ds.stockAll p = .ok (rows p))
    (hne : ∀ p x, x ∈ rows p → x.id_sucursal ≠ "") :
    recetaValidacion ds c id =
      (⟨200, .validacionResult receta.id_receta
          (estadoSugeridoValG (reconcileSpec rows (receta.detalle.getD [])))
          (reconcileSpec rows (receta.detalle.getD []))⟩,
       validacionCalls c id receta)
    ∧ (∀ i ∈ reconcileSpec rows (receta.detalle.getD []),
        i.disponible = ((rows i.id_producto).map avail).sum)
    ∧ (estadoSugeridoValG (reconcileSpec rows (receta.detalle.getD [])) = "VALIDADA" ↔
        ∀ i ∈ reconcileSpec rows (receta.detalle.getD []),
          i.solicitado ≤ i.disponible) := by
  have hitems : validacionItems ds (receta.detalle.getD []) =
      .ok (reconcileSpec rows (receta.detalle.getD [])) :=
    validacionItems_spec ds rows hall hne (receta.detalle.getD [])
  refine ⟨?_, ?_, estadoG_validada_iff _⟩
  · rw [recetaValidacion_eq_exec2 c hr, validacionExec2_eq_ok c hitems]
  · intro i hi
    rcases List.mem_map.mp hi with ⟨it, _, hit⟩
    rw [← hit]
    exact sumAvail_eq_sum (rows it.id_producto)

theorem dsR2_stockAll_rows : ∀ p, dsR2.stockAll p = .ok (rowsR2 p) := by
  intro p
  by_cases h1 : p = "PROD-1"
  · simp [dsR2, rowsR2, h1]
  · by_cases h2 : p = "PROD-2" <;> simp [dsR2, rowsR2, h1, h2]

theorem rowsR2_ids_nonempty : ∀ p x, x ∈ rowsR2 p → x.id_sucursal ≠ "" := by
  intro p x hx
  unfold rowsR2 at hx
  split at hx
  · simp at hx
    rw [hx]
    decide
  · split at hx
    · simp at hx
      rw [hx]
      decide
    · simp at hx

/-- C7 witness: the aggregate/first-fit theorem applied to the concrete
`R2` world. -/
theorem validacion_aggregate_sum_first_fit_witness :
    recetaValidacion dsR2 "w7" "R2" =
      (⟨200, .validacionResult "R2"
          (estadoSugeridoValG (reconcileSpec rowsR2 [⟨"PROD-1", 3⟩, ⟨"PROD-2", 10⟩]))
          (reconcileSpec rowsR2 [⟨"PROD-1", 3⟩, ⟨"PROD-2", 10⟩])⟩,
       validacionCalls "w7" "R2" ⟨"R2", "S1", some [⟨"PROD-1", 3⟩, ⟨"PROD-2", 10⟩]⟩)
    ∧ (∀ i ∈ reconcileSpec rowsR2 [⟨"PROD-1", 3⟩, ⟨"PROD-2", 10⟩],
        i.disponible = ((rowsR2 i.id_producto).map avail).sum)
    ∧ (estadoSugeridoValG (reconcileSpec rowsR2 [⟨"PROD-1", 3⟩, ⟨"PROD-2", 10⟩]) =
        "VALIDADA" ↔
        ∀ i ∈ reconcileSpec rowsR2 [⟨"PROD-1", 3⟩, ⟨"PROD-2", 10⟩],
          i.solicitado ≤ i.disponible) :=
  validacion_aggregate_sum_first_fit dsR2 "w7" "R2"
    ⟨"R2", "S1", some [⟨"PROD-1", 3⟩, ⟨"PROD-2", 10⟩]⟩ rowsR2
    (by rfl) dsR2_stockAll_rows rowsR2_ids_nonempty

/-! ## C2: saga compensation (spec-modelled) -/

theorem applyEgress_fail_eq (ok : LedgerOp → Bool) (pre : List EgressIntent)
    (f : EgressIntent) (rest : List EgressIntent)
    (hpre : ∀ e ∈ pre, ok (.decrease e) = true)
    (hf : ok (.decrease f) = false) :
    applyEgress ok (pre ++ f :: rest) =
      (pre,
       pre.map (fun e => (LedgerOp.decrease e, true)) ++ [(LedgerOp.decrease f, false)],
       some f) := by
  induction pre with
  | nil => simp [applyEgress, hf]
  | cons e pre' ih =>
      have he : ok (.decrease e) = true := hpre e (by simp)
      have ih2 := ih (fun x hx => hpre x (by simp [hx]))
      simp [applyEgress, he, ih2]

theorem compensate_all_ok (ok : LedgerOp → Bool) (pre : List EgressIntent)
    (h : ∀ e ∈ pre, ok (.increase e) = true) :
    compensate ok pre = pre.map (fun e => (LedgerOp.increase e, true)) := by
  induction pre with
  | nil => rfl
  | cons e pre' ih =>
      have he : ok (.increase e) = true := h e (by simp)
      have ih2 := ih (fun x hx => h x (by simp [hx]))
      simp [compensate, he] at ih2 ⊢
      exact ih2

theorem netEffect_append (a b : List (LedgerOp × Bool)) :
    netEffect (a ++ b) = netEffect a + netEffect b := by
  simp [netEffect]

theorem netEffect_dec_true (pre : List EgressIntent) :
    netEffect (pre.map (fun e => (LedgerOp.decrease e, true))) =
      -((pre.map (fun e => (e.quantity : Int))).sum) := by
  induction pre with
  | nil => simp [netEffect]
  | cons e pre' ih =>
      simp only [List.map_cons, netEffect, List.sum_cons] at ih ⊢
      simp [ledgerDelta] at ih ⊢
      omega

theorem netEffect_inc_true (pre : List EgressIntent) :
    netEffect (pre.map (fun e => (LedgerOp.increase e, true))) =
      (pre.map (fun e => (e.quantity : Int))).sum := by
  induction pre with
  | nil => simp [netEffect]
  | cons e pre' ih =>
      simp only [List.map_cons, netEffect, List.sum_cons] at ih ⊢
      simp [ledgerDelta] at ih ⊢
      omega

theorem dispenseEgress_fail_eq (ok : LedgerOp → Bool) (pre : List EgressIntent)
    (f : EgressIntent) (rest : List EgressIntent)
    (hpre : ∀ e ∈ pre, ok (.decrease e) = true)
    (hf : ok (.decrease f) = false) :
    dispenseEgress ok (pre ++ f :: rest) =
      ((pre.map (fun e => (LedgerOp.decrease e, true)) ++ [(LedgerOp.decrease f, false)])
        ++ compensate ok pre, false) := by
  unfold dispenseEgress
  rw [applyEgress_fail_eq ok pre f rest hpre hf]

/-- C2 (spec-modelled: the repository has no dispense saga coordinator in
src/; `APPLY_EGRESS_SEQUENTIALLY`/`COMPENSATE` are modelled from spec
§4.4/§5/§9): when the egress mutation at line k fails after lines 1..k-1
succeeded, the saga issues — before surfacing the failure — exactly one
inverse "increase" call per applied mutation, in apply order; and when
those best-effort compensations succeed, the ledger's net effect of the
execution is zero. -/
theorem dispenseEgress_compensates_net_zero (ok : LedgerOp → Bool)
    (pre : List EgressIntent) (f : EgressIntent) (rest : List EgressIntent)
    (hpre : ∀ e ∈ pre, ok (.decrease e) = true)
    (hf : ok (.decrease f) = false)
    (hcomp : ∀ e ∈ pre, ok (.increase e) = true) :
    dispenseEgress ok (pre ++ f :: rest) =
      ((pre.map (fun e => (LedgerOp.decrease e, true)) ++ [(LedgerOp.decrease f, false)])
        ++ pre.map (fun e => (LedgerOp.increase e, true)), false)
    ∧ netEffect (dispenseEgress ok (pre ++ f :: rest)).1 = 0 := by
  have h1 := dispenseEgress_fail_eq ok pre f rest hpre hf
  rw [compensate_all_ok ok pre hcomp] at h1
  refine ⟨h1, ?_⟩
  rw [h1, netEffect_append, netEffect_append, netEffect_dec_true, netEffect_inc_true]
  have hsingle : netEffect [(LedgerOp.decrease f, false)] = 0 := by simp [netEffect]
  rw [hsingle]
  omega

/-- C2 witness: the compensation theorem at a concrete two-line saga whose
second mutation fails. -/
theorem dispenseEgress_compensates_net_zero_witness :
    dispenseEgress
      (fun op => match op with
        | .decrease e => e.product_id == "P1"
        | .increase _ => true)
      [⟨"S1", "P1", 3⟩, ⟨"S1", "P2", 10⟩] =
      (([⟨"S1", "P1", 3⟩].map (fun e => (LedgerOp.decrease e, true)) ++
          [(LedgerOp.decrease ⟨"S1", "P2", 10⟩, false)])
        ++ [⟨"S1", "P1", 3⟩].map (fun e => (LedgerOp.increase e, true)), false)
    ∧ netEffect (dispenseEgress
        (fun op => match op with
          | .decrease e => e.product_id == "P1"
          | .increase _ => true)
        [⟨"S1", "P1", 3⟩, ⟨"S1", "P2", 10⟩]).1 = 0 :=
  dispenseEgress_compensates_net_zero
    (fun op => match op with
      | .decrease e => e.product_id == "P1"
      | .increase _ => true)
    [⟨"S1", "P1", 3⟩] ⟨"S1", "P2", 10⟩ []
    (by decide) (by decide) (by decide)
